import Mathlib

/-!
Shallow embedding of the upload-orchestration client of the Metamed Score
Rater repository (src/templates/static/js/upload.js and upload_backup.js),
together with theorems checking the specification claims about it.

The embedding models the pure core of the scripts: the pending-file set
and its add/remove operations, the byte-progress computation, the mapping
from a server response payload to normalized result records, and the
pagination arithmetic.  JavaScript numbers are modelled as exact
arithmetic (Nat / Rat), string-or-undefined fields as Option String, and
JavaScript truthiness of strings (the empty string is falsy) explicitly.
-/

namespace MetamedRater

/-! ## FileSetManager: pending files (upload_backup.js handleFiles / removeFile) -/

/-- A pending file as the scripts use it: only the name and byte size are
read by the file-set logic. -/
structure PendingFile where
  name : String
  size : Nat
deriving DecidableEq, Repr

/-- The duplicate test of handleFiles in upload_backup.js:
a candidate is a duplicate when some file already in the list has equal
name and equal size. -/
def isDuplicate (existing : List PendingFile) (f : PendingFile) : Bool :=
  existing.any fun e => e.name = f.name && e.size = f.size

/-- handleFiles from upload_backup.js, lines 83-102: filter the candidates
against the current pending list by (name, size), and when no candidate
survives, return early with a warning notification (the pending list is
untouched).  The second component is the number of candidates dropped as
duplicates, which the script surfaces implicitly as
candidates.length - newFiles.length. -/
def handleFiles (filesToUpload : List PendingFile) (files : List PendingFile) :
    List PendingFile × Nat :=
  let newFiles := files.filter fun f => !(isDuplicate filesToUpload f)
  if newFiles.length = 0 then
    (filesToUpload, files.length)
  else
    (filesToUpload ++ newFiles, files.length - newFiles.length)

/-- Property used to state the uniqueness invariant: no two files of the
list share the same (name, size) pair. -/
def nodupKeys (fs : List PendingFile) : Prop :=
  (fs.map fun f => (f.name, f.size)).Nodup

instance (fs : List PendingFile) : Decidable (nodupKeys fs) := by
  unfold nodupKeys; infer_instance

/-- A JavaScript number as it reaches the remove paths: parseInt of the
data-index attribute yields an integer or NaN. -/
inductive JsNum where
  | nan
  | int (v : Int)
deriving DecidableEq, Repr

/-- The ToIntegerOrInfinity conversion splice applies to its start
argument: NaN becomes 0. -/
def toIntegerOrInfinity : JsNum → Int
  | .nan => 0
  | .int v => v

/-- The position splice(start, 1) actually deletes at: a negative start
counts from the end of the list clamped at 0, a non-negative one is
clamped at the length. -/
def spliceStart (len : Nat) (n : JsNum) : Nat :=
  if toIntegerOrInfinity n < 0 then ((len : Int) + toIntegerOrInfinity n).toNat
  else min (toIntegerOrInfinity n).toNat len

/-- The splice(index, 1) step of removeFile: removes the element at the
computed start position, removing nothing when that position is at or
past the end. -/
def spliceRemove (fs : List PendingFile) (n : JsNum) : List PendingFile :=
  fs.take (spliceStart fs.length n) ++ fs.drop (spliceStart fs.length n + 1)

/-- JavaScript array indexing filesToUpload[index]: an element for an
in-range non-negative integer index, undefined otherwise (a negative or
NaN index is a plain property lookup that misses). -/
def arrayGet (fs : List PendingFile) : JsNum → Option PendingFile
  | .nan => none
  | .int v => if v < 0 then none else fs.get? v.toNat

/-- removeFile from upload_backup.js, lines 158-164: reads
filesToUpload[index], splices the list, re-renders, then shows a
notification built from file.name.  When the indexing yielded undefined,
reading .name of undefined throws a TypeError, so the call fails; the
splice has already run at that point, so the list state after a failing
call is spliceRemove fs n. -/
def removeFile (fs : List PendingFile) (n : JsNum) :
    Except String (PendingFile × List PendingFile) :=
  match arrayGet fs n with
  | some f => .ok (f, spliceRemove fs n)
  | none => .error "TypeError: cannot read name of undefined"

/-- The remove-button listener of upload.js, lines 100-107: the bare
splice followed by a re-render; it reads nothing from the removed
element and never throws. -/
def removeListener (fs : List PendingFile) (n : JsNum) : List PendingFile :=
  spliceRemove fs n

/-! ## ProgressTracker (xhr.upload progress listeners) -/

/-- A byte-level transfer progress event as delivered to the listeners. -/
structure ProgressEvent where
  lengthComputable : Bool
  loaded : Nat
  total : Nat
deriving DecidableEq, Repr

/-- Browsers deliver upload progress events with lengthComputable set
exactly when the total byte count is known and nonzero. -/
def wellFormedEvent (e : ProgressEvent) : Prop :=
  e.lengthComputable = true ↔ e.total ≠ 0

/-- Math.round((loaded / total) * 100) in exact arithmetic: round half up
of 100 * loaded / total, written with natural division. -/
def jsRound100 (loaded total : Nat) : Nat :=
  (200 * loaded + total) / (2 * total)

/-- The progress listener of both scripts (upload.js lines 159-166,
upload_backup.js lines 236-251): when the event is length-computable the
displayed percent becomes Math.round((e.loaded / e.total) * 100),
otherwise the handler does nothing and the previous percent stays. -/
def progressListener (prevPercent : Nat) (e : ProgressEvent) : Nat :=
  if e.lengthComputable then jsRound100 e.loaded e.total else prevPercent

/-- The current-file estimate of the upload_backup.js listener, lines
241-247: Math.min(Math.floor((e.loaded / e.total) * n), n - 1) where n is
the number of pending files. -/
def estimatedFileIndex (loaded total n : Nat) : Nat :=
  min (loaded * n / total) (n - 1)

/-- Modelled from the spec (section 4.2) for comparison with
estimatedFileIndex: min(floor(percent / 100 * fileCount), fileCount - 1)
where percent is the already-rounded integer percentage. -/
def specEstimatedFileIndex (loaded total n : Nat) : Nat :=
  min (jsRound100 loaded total * n / 100) (n - 1)

/-! ## ResultInterpreter: the server payload and showResults (upload.js) -/

/-- One score entry inside a successful result, as read by
createSuccessCard (category, score, rationale). -/
structure ScoreItem where
  category : String
  score : ℚ
  rationale : String
deriving DecidableEq, Repr

/-- The metadata object inside a successful result, as read by
createSuccessCard; every field is optional there (each read is guarded by
a JavaScript truthiness fallback). -/
structure ResultMetadata where
  total_score : Option ℚ
  confidence : Option ℚ
  paper_type : Option String
  comments : Option (List String)
  keywords : Option (List String)
deriving DecidableEq, Repr

/-- The result object attached to a successful entry; opaque to the
interpretation step, inspected only by card rendering. -/
structure ResultPayload where
  scores : Option (List ScoreItem)
  metadata : Option ResultMetadata
deriving DecidableEq, Repr

/-- An entry of data.results.successful.  The external interface (spec
section 6) declares file_path and result as required fields of a
successful entry. -/
structure SuccEntry where
  file_path : String
  result : ResultPayload
deriving DecidableEq, Repr

/-- An entry of data.results.failed.  Both fields are read through a
truthiness fallback in createErrorCard, so they are optional here. -/
structure FailEntry where
  file_path : Option String
  error : Option String
deriving DecidableEq, Repr

/-- The results object of a successful payload. -/
structure ResultsField where
  successful : Option (List SuccEntry)
  failed : Option (List FailEntry)
deriving DecidableEq, Repr

/-- The data object of a successful payload. -/
structure DataField where
  results : Option ResultsField
deriving DecidableEq, Repr

/-- The parsed server response body: a top-level success flag, an
optional data object, and an optional error string. -/
structure Response where
  success : Bool
  data : Option DataField
  error : Option String
deriving DecidableEq, Repr

/-- JavaScript string truthiness fallback: the expression x || d where x
is a string or undefined yields d when x is undefined or the empty string
(both falsy), and x otherwise. -/
def jsOrStr (v : Option String) (fallback : String) : String :=
  match v with
  | some s => if s = "" then fallback else s
  | none => fallback

/-- The guard chain response.data && response.data.results &&
response.data.results.successful of showResults (upload.js line 245),
yielding the successful array or the empty list. -/
def successfulList (resp : Response) : List SuccEntry :=
  match resp.data with
  | none => []
  | some d =>
    match d.results with
    | none => []
    | some r => r.successful.getD []

/-- The guard chain for the failed array of showResults (upload.js line
255), yielding the failed array or the empty list. -/
def failedList (resp : Response) : List FailEntry :=
  match resp.data with
  | none => []
  | some d =>
    match d.results with
    | none => []
    | some r => r.failed.getD []

/-- Outcome of a normalized result record. -/
inductive Outcome where
  | success
  | failure
deriving DecidableEq, Repr

/-- Status of the whole batch after interpretation. -/
inductive OverallStatus where
  | complete
  | failed
deriving DecidableEq, Repr

/-- A normalized per-file result record: the push into window.allResults
(type success or error) together with the fields the corresponding card
renders from the entry. -/
structure ResultRecord where
  outcome : Outcome
  sourceFileName : String
  scoreMetadata : Option ResultPayload
  errorMessage : Option String
deriving DecidableEq, Repr

/-- The record for a successful entry: createSuccessCard (upload.js lines
374-397) titles the card with file.file_path.split(sep).pop() for the
slash separator, and renders file.result verbatim. -/
def mkSuccessRecord (e : SuccEntry) : ResultRecord :=
  { outcome := .success
    sourceFileName := (e.file_path.splitOn "/").getLastD ""
    scoreMetadata := some e.result
    errorMessage := none }

/-- The record for a failed entry: createErrorCard (upload.js lines
470-485) renders file.file_path with fallback "Unknown file" and
file.error with fallback "Unknown error". -/
def mkFailureRecord (f : FailEntry) : ResultRecord :=
  { outcome := .failure
    sourceFileName := jsOrStr f.file_path "Unknown file"
    scoreMetadata := none
    errorMessage := some (jsOrStr f.error "Unknown error") }

/-- The single record of the payload-failure branch of showResults
(upload.js lines 277-292): a card headed Error Processing Files showing
response.error with fallback. -/
def payloadFailureRecord (resp : Response) : ResultRecord :=
  { outcome := .failure
    sourceFileName := "Error Processing Files"
    scoreMetadata := none
    errorMessage := some (jsOrStr resp.error "An unknown error occurred") }

/-- A forEach loop pushing f x onto an accumulator array, as both
collection loops of showResults do. -/
def jsPushAll {α : Type} (acc : List ResultRecord) (f : α → ResultRecord)
    (xs : List α) : List ResultRecord :=
  xs.foldl (fun a x => a ++ [f x]) acc

/-- The record list built by the success branch of showResults (upload.js
lines 240-262): push one record per successful entry, then one per failed
entry, starting from the empty window.allResults. -/
def successRecords (resp : Response) : List ResultRecord :=
  jsPushAll (jsPushAll [] mkSuccessRecord (successfulList resp))
    mkFailureRecord (failedList resp)

/-- The overall status of the interpretation, naming which branch of
showResults ran: the success branch renders completed per-file results
(status Complete), the other branch the single error card (Failed). -/
def overallStatus (resp : Response) : OverallStatus :=
  if resp.success then .complete else .failed

/-- The record list produced by showResults for any response. -/
def interpretRecords (resp : Response) : List ResultRecord :=
  if resp.success then successRecords resp else [payloadFailureRecord resp]

/-- The mutable client state touched by showResults. -/
structure UIState where
  filesToUpload : List PendingFile
  uploadButtonDisabled : Bool
  allResults : List ResultRecord
  currentPage : Nat
  resultsPerPage : Nat
deriving DecidableEq, Repr

/-- showResults of upload.js, lines 232-298: branch on the success flag
to fill window.allResults (resetting pagination in the success branch),
then unconditionally clear filesToUpload and re-enable the upload
button. -/
def showResults (st : UIState) (resp : Response) : UIState :=
  let st1 :=
    if resp.success then
      { st with allResults := successRecords resp, currentPage := 1,
                resultsPerPage := 1 }
    else
      { st with allResults := [payloadFailureRecord resp] }
  { st1 with filesToUpload := [], uploadButtonDisabled := false }

/-! ## ResultPaginator (createPaginationControls / displayResultsPage) -/

/-- Math.ceil(window.allResults.length / window.resultsPerPage) in exact
arithmetic. -/
def totalPages (numResults perPage : Nat) : Nat :=
  (numResults + perPage - 1) / perPage

/-- The slice displayed by displayResultsPage (upload.js lines 358-360):
allResults.slice((currentPage - 1) * perPage, that + perPage). -/
def pageSlice {α : Type} (results : List α) (currentPage perPage : Nat) :
    List α :=
  (results.drop ((currentPage - 1) * perPage)).take perPage

/-- The next-button handler (upload.js lines 333-339): increment only
while strictly below totalPages. -/
def nextPage (cur numResults perPage : Nat) : Nat :=
  if cur < totalPages numResults perPage then cur + 1 else cur

/-- The previous-button handler (upload.js lines 326-331): decrement only
while strictly above page 1. -/
def prevPage (cur : Nat) : Nat :=
  if 1 < cur then cur - 1 else cur

/-- The numbered page-button handler (upload.js lines 341-346): set
window.currentPage to the number carried by the clicked button, with no
clamping. -/
def setPage (target : Nat) : Nat := target

/-! ## Score colors (getScoreColor, upload.js lines 487-492) -/

/-- getScoreColor: green at 8 and above, yellow at 6 and above, orange at
4 and above, red otherwise. -/
def getScoreColor (score : ℚ) : String :=
  if score ≥ 8 then "bg-green-500"
  else if score ≥ 6 then "bg-yellow-500"
  else if score ≥ 4 then "bg-orange-500"
  else "bg-red-500"

/-! ## Sample states and payloads used by witnesses -/

/-- A client state with one pending file and the upload button disabled,
as it stands right after an upload was sent. -/
def st0 : UIState :=
  { filesToUpload := [⟨"paper.pdf", 123⟩], uploadButtonDisabled := true,
    allResults := [], currentPage := 1, resultsPerPage := 1 }

/-- A success-flagged payload with one successful and one failed entry. -/
def respMixed : Response :=
  { success := true
    data := some ⟨some ⟨some [⟨"a/b.pdf", ⟨none, none⟩⟩],
      some [⟨some "c.pdf", some "bad"⟩]⟩⟩
    error := none }

/-- The failure payload of the spec test: success false, error boom. -/
def respBoom : Response :=
  { success := false, data := none, error := some "boom" }

/-- A failure payload whose error field is present but empty. -/
def respEmptyError : Response :=
  { success := false, data := none, error := some "" }

/-! ## Helper lemmas -/

/-- A foldl of pushes is the accumulator followed by the mapped list. -/
theorem jsPushAll_eq_append_map {α : Type} (acc : List ResultRecord)
    (f : α → ResultRecord) (xs : List α) :
    jsPushAll acc f xs = acc ++ xs.map f := by
  induction xs generalizing acc with
  | nil => simp [jsPushAll]
  | cons x xs ih =>
    unfold jsPushAll at ih ⊢
    simp only [List.foldl_cons, List.map_cons]
    rw [ih]
    simp

/-- The two collection loops of showResults produce the mapped successful
entries followed by the mapped failed entries. -/
theorem successRecords_eq (resp : Response) :
    successRecords resp =
      (successfulList resp).map mkSuccessRecord ++
        (failedList resp).map mkFailureRecord := by
  unfold successRecords
  rw [jsPushAll_eq_append_map, jsPushAll_eq_append_map]
  simp

/-- Natural division agrees with the rational floor. -/
theorem natCast_div_eq_floor (a b : Nat) :
    ((a / b : Nat) : ℤ) = ⌊(a : ℚ) / (b : ℚ)⌋ := by
  have h0 : (0 : ℚ) ≤ (a : ℚ) / (b : ℚ) := by positivity
  have h1 : ⌊(a : ℚ) / (b : ℚ)⌋₊ = a / b := by
    rw [Nat.floor_div_nat, Nat.floor_natCast]
  rw [← h1, ← Int.floor_toNat, Int.toNat_of_nonneg (Int.floor_nonneg.mpr h0)]

/-- The natural-division formula of jsRound100 is round half up of
100 * loaded / total. -/
theorem jsRound100_eq_round (l t : Nat) (ht : 0 < t) :
    (jsRound100 l t : ℤ) = round ((100 * l : ℚ) / t) := by
  have ht' : (t : ℚ) ≠ 0 := Nat.cast_ne_zero.mpr ht.ne'
  rw [round_eq]
  have hx : (100 * (l : ℚ)) / t + 1 / 2 =
      ((200 * l + t : Nat) : ℚ) / ((2 * t : Nat) : ℚ) := by
    push_cast
    field_simp
    ring
  rw [hx]
  exact natCast_div_eq_floor (200 * l + t) (2 * t)

/-! ## C9 -/

/-- C9: after showResults processes any server response, success-flagged
or not, the pending file set is empty and the upload button is
re-enabled; the reset is unconditional. -/
theorem showResults_resets_form (st : UIState) (resp : Response) :
    (showResults st resp).filesToUpload = [] ∧
    (showResults st resp).uploadButtonDisabled = false := by
  unfold showResults
  split <;> exact ⟨rfl, rfl⟩

/-! ## C10 -/

/-- C10: getScoreColor is total and returns exactly one of four classes;
green iff the score is at least 8, yellow iff it is in the interval from
6 up to but excluding 8, orange iff in the interval from 4 up to but
excluding 6, and red otherwise. -/
theorem getScoreColor_spec (s : ℚ) :
    (getScoreColor s = "bg-green-500" ∨ getScoreColor s = "bg-yellow-500" ∨
      getScoreColor s = "bg-orange-500" ∨ getScoreColor s = "bg-red-500") ∧
    (getScoreColor s = "bg-green-500" ↔ 8 ≤ s) ∧
    (getScoreColor s = "bg-yellow-500" ↔ 6 ≤ s ∧ s < 8) ∧
    (getScoreColor s = "bg-orange-500" ↔ 4 ≤ s ∧ s < 6) ∧
    (getScoreColor s = "bg-red-500" ↔ s < 4) := by
  unfold getScoreColor
  split_ifs with h1 h2 h3
  · exact ⟨Or.inl rfl,
      ⟨fun _ => h1, fun _ => rfl⟩,
      ⟨fun h => absurd h (by decide), fun h => absurd h1 (not_le.mpr h.2)⟩,
      ⟨fun h => absurd h (by decide),
        fun h => absurd h1 (not_le.mpr (h.2.trans_le (by norm_num)))⟩,
      ⟨fun h => absurd h (by decide),
        fun h => absurd h1 (not_le.mpr (h.trans_le (by norm_num)))⟩⟩
  · exact ⟨Or.inr (Or.inl rfl),
      ⟨fun h => absurd h (by decide), fun h => absurd h h1⟩,
      ⟨fun _ => ⟨h2, not_le.mp h1⟩, fun _ => rfl⟩,
      ⟨fun h => absurd h (by decide), fun h => absurd h2 (not_le.mpr h.2)⟩,
      ⟨fun h => absurd h (by decide),
        fun h => absurd h2 (not_le.mpr (h.trans_le (by norm_num)))⟩⟩
  · exact ⟨Or.inr (Or.inr (Or.inl rfl)),
      ⟨fun h => absurd h (by decide), fun h => absurd h h1⟩,
      ⟨fun h => absurd h (by decide), fun h => absurd h.1 h2⟩,
      ⟨fun _ => ⟨h3, not_le.mp h2⟩, fun _ => rfl⟩,
      ⟨fun h => absurd h (by decide), fun h => absurd h3 (not_le.mpr h)⟩⟩
  · exact ⟨Or.inr (Or.inr (Or.inr rfl)),
      ⟨fun h => absurd h (by decide), fun h => absurd h h1⟩,
      ⟨fun h => absurd h (by decide), fun h => absurd h.1 h2⟩,
      ⟨fun h => absurd h (by decide), fun h => absurd h.1 h3⟩,
      ⟨fun _ => not_le.mp h3, fun _ => rfl⟩⟩

/-! ## C8 -/

/-- A non-negative integer index makes splice delete at that position
clamped to the length. -/
theorem spliceStart_natCast (len i : Nat) :
    spliceStart len (.int i) = min i len := by
  have h0 : ¬ ((i : Int) < 0) := not_lt.mpr (Int.natCast_nonneg i)
  simp [spliceStart, toIntegerOrInfinity, h0]

/-- C8 counterexample: the upload.js remove listener silently ignores an
out-of-range index instead of failing, and in upload_backup.js the
negative index -1 on a two-file set fails only after the splice has
removed the last file, so the pending set is not left unchanged; a NaN
index likewise fails after the splice removed the first file. -/
theorem removeFile_invalid_index_behavior :
    removeListener [⟨"a", 1⟩] (.int 5) = [⟨"a", 1⟩] ∧
    removeFile [⟨"a", 1⟩, ⟨"b", 2⟩] (.int (-1)) =
      .error "TypeError: cannot read name of undefined" ∧
    spliceRemove [⟨"a", 1⟩, ⟨"b", 2⟩] (.int (-1)) = [⟨"a", 1⟩] ∧
    spliceRemove [⟨"a", 1⟩, ⟨"b", 2⟩] (.int (-1)) ≠ [⟨"a", 1⟩, ⟨"b", 2⟩] ∧
    removeFile [⟨"a", 1⟩, ⟨"b", 2⟩] .nan =
      .error "TypeError: cannot read name of undefined" ∧
    spliceRemove [⟨"a", 1⟩, ⟨"b", 2⟩] .nan = [⟨"b", 2⟩] :=
  ⟨rfl, rfl, rfl, by decide, rfl, rfl⟩

/-- C8 amended: in upload_backup.js removeFile, a non-negative
out-of-range index (in particular any index on the empty set) fails with
the TypeError thrown reading name of undefined, and the splice leaves
the set unchanged; a negative index also fails, but on a non-empty set
the splice has already removed one element counted from the end, as a
NaN index removes the first, so the set is not left unchanged; a valid
index returns the removed PendingFile.  The upload.js remove listener is
the bare splice and never fails: an out-of-range index is a silent
no-op. -/
theorem removeFile_spec (fs : List PendingFile) (i : Nat) (v : Int) :
    (fs.length ≤ i →
      removeFile fs (.int i) =
        .error "TypeError: cannot read name of undefined" ∧
      spliceRemove fs (.int i) = fs ∧
      removeListener fs (.int i) = fs) ∧
    (∀ h : i < fs.length,
      removeFile fs (.int i) = .ok (fs.get ⟨i, h⟩, spliceRemove fs (.int i))) ∧
    (v < 0 →
      removeFile fs (.int v) =
        .error "TypeError: cannot read name of undefined" ∧
      (fs ≠ [] → (spliceRemove fs (.int v)).length = fs.length - 1)) ∧
    (removeFile fs .nan = .error "TypeError: cannot read name of undefined" ∧
      (fs ≠ [] → (spliceRemove fs .nan).length = fs.length - 1)) := by
  refine ⟨?_, ?_, ?_, ?_, ?_⟩
  · intro hle
    have hsp : spliceRemove fs (.int i) = fs := by
      unfold spliceRemove
      rw [spliceStart_natCast, min_eq_right hle, List.take_length,
        List.drop_eq_nil_of_le (by omega), List.append_nil]
    have hget : arrayGet fs (.int i) = none := by
      simp only [arrayGet]
      rw [if_neg (not_lt.mpr (Int.natCast_nonneg i)), Int.toNat_natCast]
      exact List.get?_eq_none.mpr hle
    exact ⟨by unfold removeFile; rw [hget], hsp,
      by unfold removeListener; exact hsp⟩
  · intro h
    have hget : arrayGet fs (.int i) = some (fs.get ⟨i, h⟩) := by
      simp only [arrayGet]
      rw [if_neg (not_lt.mpr (Int.natCast_nonneg i)), Int.toNat_natCast]
      exact List.get?_eq_get h
    unfold removeFile
    rw [hget]
  · intro hv
    refine ⟨?_, ?_⟩
    · have hget : arrayGet fs (.int v) = none := by
        simp only [arrayGet]
        rw [if_pos hv]
      unfold removeFile
      rw [hget]
    · intro hne
      have hlen : 0 < fs.length := List.length_pos.mpr hne
      have hs : spliceStart fs.length (.int v) ≤ fs.length - 1 := by
        simp only [spliceStart, toIntegerOrInfinity]
        rw [if_pos hv]
        omega
      unfold spliceRemove
      rw [List.length_append, List.length_take, List.length_drop]
      omega
  · unfold removeFile
    rfl
  · intro hne
    have hlen : 0 < fs.length := List.length_pos.mpr hne
    have hs : spliceStart fs.length .nan = 0 := by
      simp [spliceStart, toIntegerOrInfinity]
    unfold spliceRemove
    rw [hs, List.length_append, List.length_take, List.length_drop]
    omega

/-- Witness for C8: out-of-range index 3 on the empty set fails with the
set unchanged, index 0 on a one-file set returns that file, and index -2
and a NaN index on that set fail after the splice removed its only
element. -/
theorem removeFile_spec_witness :
    (removeFile [] (.int 3) =
        .error "TypeError: cannot read name of undefined" ∧
      spliceRemove [] (.int 3) = [] ∧
      removeListener [] (.int 3) = []) ∧
    removeFile [⟨"paper.pdf", 123⟩] (.int 0) =
      .ok (⟨"paper.pdf", 123⟩, spliceRemove [⟨"paper.pdf", 123⟩] (.int 0)) ∧
    (removeFile [⟨"paper.pdf", 123⟩] (.int (-2)) =
        .error "TypeError: cannot read name of undefined" ∧
      (spliceRemove [⟨"paper.pdf", 123⟩] (.int (-2))).length =
        List.length ([⟨"paper.pdf", 123⟩] : List PendingFile) - 1) ∧
    (removeFile [⟨"paper.pdf", 123⟩] .nan =
        .error "TypeError: cannot read name of undefined" ∧
      (spliceRemove [⟨"paper.pdf", 123⟩] .nan).length =
        List.length ([⟨"paper.pdf", 123⟩] : List PendingFile) - 1) := by
  have h := removeFile_spec [⟨"paper.pdf", 123⟩] 0 (-2)
  have h0 := removeFile_spec ([] : List PendingFile) 3 (-2)
  have hc := h.2.2.1 (by decide)
  have hd := h.2.2.2
  exact ⟨h0.1 (by decide), h.2.1 (by decide),
    ⟨hc.1, hc.2 (by decide)⟩, ⟨hd.1, hd.2 (by decide)⟩⟩

/-! ## C4 -/

/-- C4: a progress event with zero total bytes is not length-computable,
so the listener leaves the initial percent at 0 and never raises; with
positive total bytes the listener sets percent to round half up of
100 * loaded / total. -/
theorem progressListener_spec (e : ProgressEvent) (hw : wellFormedEvent e) :
    (e.total = 0 → progressListener 0 e = 0) ∧
    (0 < e.total → ∀ prev : Nat,
      (progressListener prev e : ℤ) = round ((100 * e.loaded : ℚ) / e.total)) := by
  constructor
  · intro h0
    have hlc : e.lengthComputable = false := by
      rcases hb : e.lengthComputable with _ | _
      · rfl
      · exact absurd h0 (hw.mp hb)
    unfold progressListener
    rw [hlc]
    rfl
  · intro ht prev
    have hlc : e.lengthComputable = true := hw.mpr ht.ne'
    unfold progressListener
    rw [hlc]
    simpa using jsRound100_eq_round e.loaded e.total ht

/-- Witness for C4: a zero-total event leaves the percent at 0, and a
computable event of 1 of 3 bytes yields 33 percent. -/
theorem progressListener_spec_witness :
    progressListener 0 ⟨false, 5, 0⟩ = 0 ∧
    (progressListener 7 ⟨true, 1, 3⟩ : ℤ) = round ((100 * 1 : ℚ) / 3) ∧
    progressListener 7 ⟨true, 1, 3⟩ = 33 :=
  ⟨(progressListener_spec ⟨false, 5, 0⟩
      ⟨fun h => absurd h (by decide), fun h => absurd rfl h⟩).1 rfl,
    by
      have h := (progressListener_spec ⟨true, 1, 3⟩
        ⟨fun _ => by decide, fun _ => rfl⟩).2 (by decide) 7
      simpa using h,
    by decide⟩

/-! ## C5 -/

/-- C5 counterexample: at 5 of 1000 bytes with 100 pending files the
script computes file index 0 from the raw byte ratio, while the claimed
formula based on the rounded percent gives index 1. -/
theorem estimatedFileIndex_ne_spec :
    estimatedFileIndex 5 1000 100 = 0 ∧
    specEstimatedFileIndex 5 1000 100 = 1 ∧
    estimatedFileIndex 5 1000 100 ≠ specEstimatedFileIndex 5 1000 100 := by
  decide

/-- C5 amended: the estimated current-file index is
min(floor(transferredBytes / totalBytes * fileCount), fileCount - 1),
computed from the raw byte ratio rather than from the rounded percent,
and it never exceeds fileCount - 1. -/
theorem estimatedFileIndex_floor_ratio (loaded total n : Nat)
    (_ht : 0 < total) (hn : 0 < n) :
    (estimatedFileIndex loaded total n : ℤ) =
      min ⌊(loaded : ℚ) / total * n⌋ ((n : ℤ) - 1) ∧
    estimatedFileIndex loaded total n ≤ n - 1 := by
  constructor
  · have h1 : ((loaded * n / total : Nat) : ℤ) = ⌊(loaded : ℚ) / total * n⌋ := by
      rw [natCast_div_eq_floor]
      congr 1
      push_cast
      ring
    unfold estimatedFileIndex
    rw [Nat.cast_min, h1, Nat.cast_pred hn]
  · exact min_le_right _ _

/-- Witness for C5: the amended formula evaluated at 5 of 1000 bytes with
100 pending files. -/
theorem estimatedFileIndex_floor_ratio_witness :
    (estimatedFileIndex 5 1000 100 : ℤ) =
      min ⌊(5 : ℚ) / 1000 * 100⌋ (((100 : Nat) : ℤ) - 1) ∧
    estimatedFileIndex 5 1000 100 ≤ 100 - 1 := by
  have h := estimatedFileIndex_floor_ratio 5 1000 100 (by decide) (by decide)
  exact ⟨by exact_mod_cast h.1, h.2⟩

/-! ## C1 -/

/-- C1 counterexample: two candidates with identical name and size inside
one call are both checked only against the files already pending before
the call, so both are added and the pending set ends with a duplicated
(name, size) pair. -/
theorem handleFiles_intrabatch_duplicate :
    (handleFiles [] [⟨"a", 1⟩, ⟨"a", 1⟩]).1 = [⟨"a", 1⟩, ⟨"a", 1⟩] ∧
    (handleFiles [] [⟨"a", 1⟩, ⟨"a", 1⟩]).2 = 0 ∧
    ¬ nodupKeys (handleFiles [] [⟨"a", 1⟩, ⟨"a", 1⟩]).1 := by
  decide

/-- A list splits into the elements satisfying a duplicate test and those
failing it. -/
theorem length_eq_countP_dup_add (pending files : List PendingFile) :
    files.length = files.countP (fun f => isDuplicate pending f) +
      files.countP (fun f => !(isDuplicate pending f)) := by
  induction files with
  | nil => simp
  | cons x xs ih =>
    simp only [List.countP_cons, List.length_cons]
    by_cases hx : isDuplicate pending x = true <;> simp [hx] <;> omega

/-- C1 amended: every candidate whose (name, size) pair matches a file
already pending before the call is silently dropped and counted, and the
kept candidates are appended; since candidates are compared only against
the pre-call pending set, the no-duplicate invariant holds provided the
pending set and the candidate batch each contain no internal (name, size)
duplicates. -/
theorem handleFiles_dedup (pending files : List PendingFile) :
    (handleFiles pending files).1 =
      pending ++ files.filter (fun f => !(isDuplicate pending f)) ∧
    (handleFiles pending files).2 =
      files.countP (fun f => isDuplicate pending f) ∧
    (nodupKeys pending → nodupKeys files →
      nodupKeys (handleFiles pending files).1) := by
  have hfst : (handleFiles pending files).1 =
      pending ++ files.filter (fun f => !(isDuplicate pending f)) := by
    simp only [handleFiles]
    split_ifs with h
    · rw [List.length_eq_zero] at h
      simp [h]
    · rfl
  have hflen : (files.filter (fun f => !(isDuplicate pending f))).length =
      files.countP (fun f => !(isDuplicate pending f)) :=
    (List.countP_eq_length_filter _ _).symm
  have hsum : files.length =
      files.countP (fun f => isDuplicate pending f) +
        files.countP (fun f => !(isDuplicate pending f)) :=
    length_eq_countP_dup_add pending files
  refine ⟨hfst, ?_, ?_⟩
  · simp only [handleFiles]
    split_ifs with h <;> omega
  · intro hp hf
    rw [hfst]
    unfold nodupKeys at *
    rw [List.map_append]
    refine List.Nodup.append hp ?_ ?_
    · exact hf.sublist ((List.filter_sublist _).map _)
    · intro k hk1 hk2
      rcases List.mem_map.mp hk1 with ⟨e, he, hek⟩
      rcases List.mem_map.mp hk2 with ⟨f, hfmem, hfk⟩
      rcases List.mem_filter.mp hfmem with ⟨_, hpass⟩
      have hkey : e.name = f.name ∧ e.size = f.size := by
        have hpair : (e.name, e.size) = (f.name, f.size) := hek.trans hfk.symm
        exact ⟨congrArg Prod.fst hpair, congrArg Prod.snd hpair⟩
      have hdup : isDuplicate pending f = true := by
        unfold isDuplicate
        rw [List.any_eq_true]
        exact ⟨e, he, by simp [hkey.1, hkey.2]⟩
      simp [hdup] at hpass

/-- Witness for C1: adding a duplicate of the pending file together with
a fresh file drops the duplicate, counts it once, and keeps the pending
set free of repeated (name, size) pairs. -/
theorem handleFiles_dedup_witness :
    (handleFiles [⟨"a", 1⟩] [⟨"a", 1⟩, ⟨"b", 2⟩]).1 =
      [⟨"a", 1⟩] ++ [⟨"a", 1⟩, ⟨"b", 2⟩].filter
        (fun f => !(isDuplicate [⟨"a", 1⟩] f)) ∧
    (handleFiles [⟨"a", 1⟩] [⟨"a", 1⟩, ⟨"b", 2⟩]).2 =
      [⟨"a", 1⟩, ⟨"b", 2⟩].countP (fun f => isDuplicate [⟨"a", 1⟩] f) ∧
    nodupKeys (handleFiles [⟨"a", 1⟩] [⟨"a", 1⟩, ⟨"b", 2⟩]).1 := by
  have h := handleFiles_dedup [⟨"a", 1⟩] [⟨"a", 1⟩, ⟨"b", 2⟩]
  exact ⟨h.1, h.2.1, h.2.2 (by decide) (by decide)⟩

/-! ## C2 -/

/-- C2: for every success-flagged payload the record list is one record
per successful entry followed by one per failed entry, both arrays
defaulting to empty when absent, with every record of the first group a
Success and of the second a Failure, and the overall status is Complete
even when the failed array is non-empty. -/
theorem showResults_success_ordering (st : UIState) (resp : Response)
    (hs : resp.success = true) :
    (showResults st resp).allResults =
      (successfulList resp).map mkSuccessRecord ++
        (failedList resp).map mkFailureRecord ∧
    (showResults st resp).allResults.length =
      (successfulList resp).length + (failedList resp).length ∧
    (∀ r ∈ (successfulList resp).map mkSuccessRecord,
      r.outcome = Outcome.success) ∧
    (∀ r ∈ (failedList resp).map mkFailureRecord,
      r.outcome = Outcome.failure) ∧
    overallStatus resp = OverallStatus.complete := by
  have hrec : (showResults st resp).allResults =
      (successfulList resp).map mkSuccessRecord ++
        (failedList resp).map mkFailureRecord := by
    simp [showResults, hs, successRecords_eq]
  refine ⟨hrec, ?_, ?_, ?_, ?_⟩
  · rw [hrec]
    simp
  · intro r hr
    rcases List.mem_map.mp hr with ⟨e, _, rfl⟩
    rfl
  · intro r hr
    rcases List.mem_map.mp hr with ⟨f, _, rfl⟩
    rfl
  · simp [overallStatus, hs]

/-- Witness for C2: the mixed payload with one successful and one failed
entry yields the success record followed by the failure record and
status Complete. -/
theorem showResults_success_ordering_witness :
    (showResults st0 respMixed).allResults =
      (successfulList respMixed).map mkSuccessRecord ++
        (failedList respMixed).map mkFailureRecord ∧
    (showResults st0 respMixed).allResults.length =
      (successfulList respMixed).length + (failedList respMixed).length ∧
    (failedList respMixed).length = 1 ∧
    overallStatus respMixed = OverallStatus.complete := by
  have h := showResults_success_ordering st0 respMixed rfl
  exact ⟨h.1, h.2.1, by decide, h.2.2.2.2⟩

/-! ## C3 -/

/-- C3: interpretation of a success-flagged payload is total, and each
record carries the documented fields: a Success record takes the last
slash-separated segment of the file_path of its entry and the result
field verbatim; a Failure record takes the file_path of its entry or the
fallback Unknown file, and the error of its entry or the fallback
Unknown error. -/
theorem showResults_success_record_fields (st : UIState) (resp : Response)
    (hs : resp.success = true) :
    ∀ r ∈ (showResults st resp).allResults,
      (r.outcome = Outcome.success → ∃ e ∈ successfulList resp,
        r.sourceFileName = (e.file_path.splitOn "/").getLastD "" ∧
        r.scoreMetadata = some e.result ∧ r.errorMessage = none) ∧
      (r.outcome = Outcome.failure → ∃ f ∈ failedList resp,
        ((∃ s, f.file_path = some s ∧ r.sourceFileName = s) ∨
          r.sourceFileName = "Unknown file") ∧
        ((∃ s, f.error = some s ∧ r.errorMessage = some s) ∨
          r.errorMessage = some "Unknown error")) := by
  have hrec : (showResults st resp).allResults =
      (successfulList resp).map mkSuccessRecord ++
        (failedList resp).map mkFailureRecord := by
    simp [showResults, hs, successRecords_eq]
  rw [hrec]
  intro r hr
  rcases List.mem_append.mp hr with hmem | hmem
  · rcases List.mem_map.mp hmem with ⟨e, he, rfl⟩
    refine ⟨fun _ => ⟨e, he, rfl, rfl, rfl⟩, fun hout => ?_⟩
    simp [mkSuccessRecord] at hout
  · rcases List.mem_map.mp hmem with ⟨f, hfm, rfl⟩
    refine ⟨fun hout => ?_, fun _ => ⟨f, hfm, ?_, ?_⟩⟩
    · simp [mkFailureRecord] at hout
    · cases hfp : f.file_path with
      | none =>
        right
        simp [mkFailureRecord, jsOrStr, hfp]
      | some s =>
        by_cases hse : s = ""
        · right
          simp [mkFailureRecord, jsOrStr, hfp, hse]
        · left
          exact ⟨s, rfl, by simp [mkFailureRecord, jsOrStr, hfp, hse]⟩
    · cases hfe : f.error with
      | none =>
        right
        simp [mkFailureRecord, jsOrStr, hfe]
      | some s =>
        by_cases hse : s = ""
        · right
          simp [mkFailureRecord, jsOrStr, hfe, hse]
        · left
          exact ⟨s, rfl, by simp [mkFailureRecord, jsOrStr, hfe, hse]⟩

/-- Witness for C3: the failure record of the mixed payload is in the
record list and its fields come from the failed entry of the payload. -/
theorem showResults_success_record_fields_witness :
    ∃ f ∈ failedList respMixed,
      ((∃ s, f.file_path = some s ∧
          (mkFailureRecord ⟨some "c.pdf", some "bad"⟩).sourceFileName = s) ∨
        (mkFailureRecord ⟨some "c.pdf", some "bad"⟩).sourceFileName =
          "Unknown file") ∧
      ((∃ s, f.error = some s ∧
          (mkFailureRecord ⟨some "c.pdf", some "bad"⟩).errorMessage = some s) ∨
        (mkFailureRecord ⟨some "c.pdf", some "bad"⟩).errorMessage =
          some "Unknown error") :=
  (showResults_success_record_fields st0 respMixed rfl
    (mkFailureRecord ⟨some "c.pdf", some "bad"⟩) (by decide)).2 rfl

/-! ## C6 -/

/-- C6 counterexample: a failure payload whose error field is present but
equal to the empty string is rendered with the fallback message, not with
the empty error string the claim prescribes for a present field. -/
theorem payloadFailure_empty_error_fallback :
    (showResults st0 respEmptyError).allResults =
      [{ outcome := Outcome.failure,
         sourceFileName := "Error Processing Files",
         scoreMetadata := none,
         errorMessage := some "An unknown error occurred" }] ∧
    (showResults st0 respEmptyError).allResults ≠
      [{ outcome := Outcome.failure,
         sourceFileName := "Error Processing Files",
         scoreMetadata := none,
         errorMessage := some "" }] := by
  decide

/-- C6 amended: for every payload with success flag false, interpretation
produces exactly one Failure record whose message is the payload error
string when that field is present and non-empty, and the fallback unknown
error string when it is absent or empty; the overall status is Failed. -/
theorem showResults_payload_failure (st : UIState) (resp : Response)
    (hs : resp.success = false) :
    (showResults st resp).allResults = [payloadFailureRecord resp] ∧
    (payloadFailureRecord resp).outcome = Outcome.failure ∧
    ((∃ s, resp.error = some s ∧ s ≠ "" ∧
        (payloadFailureRecord resp).errorMessage = some s) ∨
      ((resp.error = none ∨ resp.error = some "") ∧
        (payloadFailureRecord resp).errorMessage =
          some "An unknown error occurred")) ∧
    overallStatus resp = OverallStatus.failed := by
  refine ⟨by simp [showResults, hs], rfl, ?_, by simp [overallStatus, hs]⟩
  cases he : resp.error with
  | none =>
    right
    exact ⟨Or.inl rfl, by simp [payloadFailureRecord, jsOrStr, he]⟩
  | some s =>
    by_cases hse : s = ""
    · right
      subst hse
      exact ⟨Or.inr rfl, by simp [payloadFailureRecord, jsOrStr, he]⟩
    · left
      exact ⟨s, rfl, hse, by simp [payloadFailureRecord, jsOrStr, he, hse]⟩

/-- Witness for C6: the payload with success false and error boom yields
exactly one Failure record with message boom and status Failed. -/
theorem showResults_payload_failure_witness :
    (showResults st0 respBoom).allResults = [payloadFailureRecord respBoom] ∧
    (payloadFailureRecord respBoom).outcome = Outcome.failure ∧
    ((∃ s, respBoom.error = some s ∧ s ≠ "" ∧
        (payloadFailureRecord respBoom).errorMessage = some s) ∨
      ((respBoom.error = none ∨ respBoom.error = some "") ∧
        (payloadFailureRecord respBoom).errorMessage =
          some "An unknown error occurred")) ∧
    overallStatus respBoom = OverallStatus.failed ∧
    payloadFailureRecord respBoom =
      { outcome := Outcome.failure,
        sourceFileName := "Error Processing Files",
        scoreMetadata := none,
        errorMessage := some "boom" } := by
  have h := showResults_payload_failure st0 respBoom rfl
  exact ⟨h.1, h.2.1, h.2.2.1, h.2.2.2, by decide⟩

/-! ## C7 -/

/-- C7 counterexample: the numbered page buttons set the page verbatim,
so jumping to page 10 with 7 records and page size 3 does not clamp to
page 3: the displayed slice is empty, not the last record. -/
theorem pageSlice_no_clamping :
    setPage 10 = 10 ∧
    totalPages 7 3 = 3 ∧
    pageSlice [1, 2, 3, 4, 5, 6, 7] (setPage 10) 3 = ([] : List Nat) ∧
    pageSlice [1, 2, 3, 4, 5, 6, 7] (setPage 10) 3 ≠ [7] := by
  decide

/-- C7 amended: the code never clamps an arbitrary page jump (an
out-of-range page displays an empty slice); navigation stays in range
because the previous and next handlers are guarded, and for every page
within 1 and totalPages the displayed slice is exactly that page of the
records: contiguous, in order, non-empty and of length at most the page
size. -/
theorem pageSlice_valid_page {α : Type} (results : List α)
    (page perPage : Nat) (hps : 1 ≤ perPage) (h1 : 1 ≤ page)
    (h2 : page ≤ totalPages results.length perPage) :
    (pageSlice results page perPage).length ≤ perPage ∧
    0 < (pageSlice results page perPage).length ∧
    (∀ i, (pageSlice results page perPage)[i]? =
      if i < perPage then results[(page - 1) * perPage + i]? else none) ∧
    1 ≤ prevPage page ∧
    nextPage page results.length perPage ≤ totalPages results.length perPage := by
  have hmul : page * perPage ≤ results.length + perPage - 1 :=
    (Nat.le_div_iff_mul_le (by omega)).mp h2
  have hsub : (page - 1) * perPage = page * perPage - perPage := by
    rw [Nat.sub_mul, Nat.one_mul]
  have hge : perPage ≤ page * perPage := Nat.le_mul_of_pos_left perPage (by omega)
  have hlt : (page - 1) * perPage < results.length := by omega
  have hlen : (pageSlice results page perPage).length =
      min perPage (results.length - (page - 1) * perPage) := by
    simp [pageSlice, List.length_take, List.length_drop]
  refine ⟨?_, ?_, ?_, ?_, ?_⟩
  · rw [hlen]
    omega
  · rw [hlen]
    omega
  · intro i
    by_cases hi : i < perPage
    · rw [if_pos hi]
      unfold pageSlice
      rw [List.getElem?_take_of_lt hi, List.getElem?_drop]
    · rw [if_neg hi]
      exact List.getElem?_eq_none (by omega)
  · unfold prevPage
    split <;> omega
  · unfold nextPage
    split <;> omega

/-- Witness for C7: page 3 of 7 records at page size 3 is a valid page
and its slice is exactly the last record. -/
theorem pageSlice_valid_page_witness :
    (pageSlice [1, 2, 3, 4, 5, 6, 7] 3 3).length ≤ 3 ∧
    0 < (pageSlice [1, 2, 3, 4, 5, 6, 7] 3 3).length ∧
    1 ≤ prevPage 3 ∧
    nextPage 3 (List.length [1, 2, 3, 4, 5, 6, 7]) 3 ≤
      totalPages (List.length [1, 2, 3, 4, 5, 6, 7]) 3 ∧
    pageSlice [1, 2, 3, 4, 5, 6, 7] 3 3 = [7] := by
  have h := pageSlice_valid_page [1, 2, 3, 4, 5, 6, 7] 3 3 (by decide)
    (by decide) (by decide)
  exact ⟨h.1, h.2.1, h.2.2.2.1, h.2.2.2.2, by decide⟩

end MetamedRater
